import Mathlib

/-!
Verification of the GLIK demo backend (src/main.py).

The Python source is shallowly embedded: Python floats are modelled as
rationals (the comparisons and additions in the source are exact on the
values the claims quantify over), Python ints as integers, and the two
sources of randomness (`random.randint`, `random.choice`) are passed in
explicitly as parameters, so every endpoint body becomes a pure function.
-/

/-- Mirrors the pydantic model `PatientData` of src/main.py, with the same
field defaults. -/
structure PatientData where
  glucose : ℚ
  insulin_units : ℚ := 0
  carbs_grams : ℚ := 0
  activity_level : ℚ := 5
  stress_level : ℚ := 5
  mood : String := "😐"

def sep : String := " "

def stableMsg : String := "Levels look stable."

/-- The sequential accumulation of `score` and `reasons` in
`calculate_risk` (src/main.py lines 42-70), rendered as a chain of
rebindings of the pair `sr`; the order of the appended reason strings is
the order of the Python `if` statements. -/
def riskFold (data : PatientData) : ℤ × List String :=
  let score : ℤ := 0
  let reasons : List String := []
  let sr : ℤ × List String :=
    if data.glucose > 180 then
      (score + 60, reasons ++ ["Current glucose is elevated."])
    else if data.glucose < 70 then
      (score + 50, reasons ++ ["Risk of hypoglycemia."])
    else
      (score + 10, reasons)
  let sr : ℤ × List String :=
    if data.carbs_grams > 60 then
      (sr.1 + 20, sr.2 ++ ["High carb intake detected."])
    else sr
  let sr : ℤ × List String :=
    if data.stress_level > 7 then
      (sr.1 + 15, sr.2 ++ ["High stress levels can spike glucose."])
    else sr
  let sr : ℤ × List String :=
    if data.activity_level < 3 then
      (sr.1 + 10, sr.2 ++ ["Low activity increases persistence of high glucose."])
    else sr
  let sr : ℤ × List String :=
    if data.insulin_units = 0 ∧ data.glucose > 150 then
      (sr.1 + 10, sr.2 ++ ["Missed insulin correction?"])
    else sr
  sr

/-- Embedding of `calculate_risk` from src/main.py lines 41-84: after the
accumulation `riskFold`, the score is clamped to [0,100], the label is
bucketed from the clamped score, and the explanation joins the reasons with
a space (or is the fixed stable message when no reason triggered). -/
def calculate_risk (data : PatientData) : ℤ × String × String :=
  let sr : ℤ × List String := riskFold data
  let score : ℤ := min (max sr.1 0) 100
  let label : String :=
    if score < 30 then "Low" else if score < 70 then "Medium" else "High"
  let explanation : String :=
    if sr.2.isEmpty then stableMsg else String.intercalate sep sr.2
  (score, label, explanation)

/-- The unclamped additive score exactly as claim C1 words it: the sum,
starting at 0, of the five contributions. -/
def specScore (d : PatientData) : ℤ :=
  (if d.glucose > 180 then 60 else if d.glucose < 70 then 50 else 10)
  + (if d.carbs_grams > 60 then 20 else 0)
  + (if d.stress_level > 7 then 15 else 0)
  + (if d.activity_level < 3 then 10 else 0)
  + (if d.insulin_units = 0 ∧ d.glucose > 150 then 10 else 0)

/-- The reason strings in trigger order, as claim C1 words them. -/
def specReasons (d : PatientData) : List String :=
  (if d.glucose > 180 then ["Current glucose is elevated."]
   else if d.glucose < 70 then ["Risk of hypoglycemia."]
   else [])
  ++ (if d.carbs_grams > 60 then ["High carb intake detected."] else [])
  ++ (if d.stress_level > 7 then ["High stress levels can spike glucose."] else [])
  ++ (if d.activity_level < 3 then
        ["Low activity increases persistence of high glucose."] else [])
  ++ (if d.insulin_units = 0 ∧ d.glucose > 150 then
        ["Missed insulin correction?"] else [])

/-- The explanation string as claim C1 words it. -/
def specExplanation (d : PatientData) : String :=
  if specReasons d = [] then stableMsg else String.intercalate sep (specReasons d)

/-- The label bucketing of a score, as the spec words it. -/
def bucketLabel (s : ℤ) : String :=
  if s < 30 then "Low" else if s < 70 then "Medium" else "High"

/-- The accumulation chain computes exactly the additive spec score and the
trigger-ordered spec reasons. -/
lemma riskFold_eq (d : PatientData) :
    riskFold d = (specScore d, specReasons d) := by
  unfold riskFold specScore specReasons
  split_ifs <;> rfl

/-- Characterization of `calculate_risk`: the returned score is the clamped
additive score, the label is the bucketing of that clamped score, and the
explanation is the joined trigger-ordered reasons. -/
lemma calculate_risk_eq (d : PatientData) :
    calculate_risk d =
      (min (max (specScore d) 0) 100,
       bucketLabel (min (max (specScore d) 0) 100),
       specExplanation d) := by
  unfold calculate_risk bucketLabel specExplanation
  rw [riskFold_eq]
  by_cases h : specReasons d = [] <;>
    simp [h, List.isEmpty_iff]

/-- Helper: every contribution is non-negative and the glucose branch gives
at least 10, so the unclamped sum is at least 10. -/
lemma specScore_ge_ten (d : PatientData) : 10 ≤ specScore d := by
  unfold specScore
  split_ifs <;> norm_num

/-- Helper: with elevated glucose the unclamped sum is at least 60. -/
lemma specScore_ge_sixty (d : PatientData) (h : d.glucose > 180) :
    60 ≤ specScore d := by
  unfold specScore
  rw [if_pos h]
  split_ifs <;> norm_num

/-- Helper: the bucket label is always one of the three fixed strings. -/
lemma bucketLabel_cases (s : ℤ) :
    bucketLabel s = "Low" ∨ bucketLabel s = "Medium" ∨ bucketLabel s = "High" := by
  unfold bucketLabel
  split_ifs <;> simp

/-- Helper: a Low bucket label forces the score below 30. -/
lemma bucketLabel_low (s : ℤ) (h : bucketLabel s = "Low") : s < 30 := by
  unfold bucketLabel at h
  split_ifs at h with h1 h2
  · exact h1
  · simp at h
  · simp at h

/-- A concrete input on which every contribution triggers: the unclamped
sum is 60 + 20 + 15 + 10 + 10 = 115. -/
def dAll : PatientData :=
  { glucose := 200, carbs_grams := 100, activity_level := 0, stress_level := 8 }

/-- A concrete elevated-glucose input with all other fields at default. -/
def dHigh : PatientData := { glucose := 200 }

/-- A concrete in-range input with all other fields at default. -/
def dMid : PatientData := { glucose := 100 }

/-- C1 counterexample: on `dAll` the sum of the contributions is 115, but
`calculate_risk` returns 100 because of the clamp, so the returned score is
not the sum the claim describes. -/
theorem calculate_risk_sum_counterexample :
    (calculate_risk dAll).1 = 100 ∧ specScore dAll = 115 ∧
      (calculate_risk dAll).1 ≠ specScore dAll := by
  refine ⟨?_, ?_, ?_⟩ <;> decide

/-- C1 (amended): for every input, `calculate_risk` returns the sum of the
five contributions CLAMPED to [0,100] as its score, and the space-joined
trigger-ordered reasons (or the fixed stable message) as its explanation. -/
theorem calculate_risk_clamped_sum_and_reasons (d : PatientData) :
    (calculate_risk d).1 = min (max (specScore d) 0) 100 ∧
      (calculate_risk d).2.2 = specExplanation d := by
  rw [calculate_risk_eq]
  exact ⟨rfl, rfl⟩

/-- C2: the returned score always lies in [0,100] and the returned label is
the deterministic bucketing of the returned score (< 30 Low, < 70 Medium,
otherwise High). -/
theorem risk_score_range_and_label (d : PatientData) :
    0 ≤ (calculate_risk d).1 ∧ (calculate_risk d).1 ≤ 100 ∧
      (calculate_risk d).2.1 = bucketLabel ((calculate_risk d).1) := by
  rw [calculate_risk_eq]
  refine ⟨?_, ?_, rfl⟩ <;> omega

/-- C6: whenever glucose exceeds 180 the returned score is at least 60 and
the returned label is Medium or High, never Low. -/
theorem glucose_elevated_score_label (d : PatientData) (h : d.glucose > 180) :
    60 ≤ (calculate_risk d).1 ∧
      ((calculate_risk d).2.1 = "Medium" ∨ (calculate_risk d).2.1 = "High") := by
  have hs := specScore_ge_sixty d h
  rw [calculate_risk_eq]
  refine ⟨by omega, ?_⟩
  have h60 : 60 ≤ min (max (specScore d) 0) 100 := by omega
  unfold bucketLabel
  split_ifs with h1 h2
  · omega
  · exact Or.inl rfl
  · exact Or.inr rfl

/-- C6 witness: at glucose 200 the hypothesis holds and the conclusion is
obtained from the theorem. -/
theorem glucose_elevated_score_label_witness :
    60 ≤ (calculate_risk dHigh).1 ∧
      ((calculate_risk dHigh).2.1 = "Medium" ∨ (calculate_risk dHigh).2.1 = "High") :=
  glucose_elevated_score_label dHigh (by decide)

/-- C7: `calculate_risk` is total: every input, including activity or
stress values outside [0,10], yields a result, and that result carries one
of the three well-formed labels; no validation beyond the explicit
threshold comparisons takes place. -/
theorem calculate_risk_total_no_validation (g i c a s : ℚ) (m : String) :
    (calculate_risk ⟨g, i, c, a, s, m⟩).2.1 = "Low" ∨
      (calculate_risk ⟨g, i, c, a, s, m⟩).2.1 = "Medium" ∨
      (calculate_risk ⟨g, i, c, a, s, m⟩).2.1 = "High" := by
  rw [calculate_risk_eq]
  exact bucketLabel_cases _

/-- C8: the mood field has no effect: two inputs agreeing on everything
except mood produce identical score, label and explanation. -/
theorem mood_no_effect (g i c a s : ℚ) (m1 m2 : String) :
    calculate_risk ⟨g, i, c, a, s, m1⟩ = calculate_risk ⟨g, i, c, a, s, m2⟩ := rfl

/-- C9: `calculate_risk` is a pure deterministic function of its input
fields: fieldwise-equal inputs give identical results. -/
theorem calculate_risk_deterministic (d1 d2 : PatientData)
    (hg : d1.glucose = d2.glucose) (hi : d1.insulin_units = d2.insulin_units)
    (hc : d1.carbs_grams = d2.carbs_grams)
    (ha : d1.activity_level = d2.activity_level)
    (hs : d1.stress_level = d2.stress_level) (hm : d1.mood = d2.mood) :
    calculate_risk d1 = calculate_risk d2 := by
  cases d1
  cases d2
  dsimp at hg hi hc ha hs hm
  subst hg hi hc ha hs hm
  rfl

/-- C9 witness: two evaluations on the equal concrete input agree. -/
theorem calculate_risk_deterministic_witness :
    calculate_risk dMid = calculate_risk dMid :=
  calculate_risk_deterministic dMid dMid rfl rfl rfl rfl rfl rfl

/-- C10: the unclamped sum is at least 10, hence the returned score is at
least 10 (the lower clamp at 0 is never active), and a Low label always
comes with a score in [10,29]. -/
theorem score_at_least_ten (d : PatientData) :
    10 ≤ specScore d ∧ 10 ≤ (calculate_risk d).1 ∧
      ((calculate_risk d).2.1 = "Low" →
        10 ≤ (calculate_risk d).1 ∧ (calculate_risk d).1 ≤ 29) := by
  have hs := specScore_ge_ten d
  rw [calculate_risk_eq]
  refine ⟨hs, by omega, fun hl => ⟨by omega, ?_⟩⟩
  have := bucketLabel_low _ hl
  omega

/-- C10 witness: instantiated at the concrete in-range input. -/
theorem score_at_least_ten_witness :
    10 ≤ specScore dMid ∧ 10 ≤ (calculate_risk dMid).1 ∧
      ((calculate_risk dMid).2.1 = "Low" →
        10 ≤ (calculate_risk dMid).1 ∧ (calculate_risk dMid).1 ≤ 29) :=
  score_at_least_ten dMid

/-- Python `int(x)` on a float truncates toward zero; on rationals this is
the floor for non-negative values and the negated floor of the negation
otherwise. -/
def ratTrunc (q : ℚ) : ℤ := if q < 0 then -⌊-q⌋ else ⌊q⌋

/-- The clamp `max(60, min(350, current))` of src/main.py line 97. -/
def clampQ (x : ℚ) : ℚ := max 60 (min 350 x)

/-- Embedding of the loop body of `generate_trend` (src/main.py lines
91-98): `draws` supplies the successive values of `random.randint(-15, 15)`;
each iteration appends `int(current)`, adds the draw, then clamps. -/
def trendAux : ℕ → ℚ → (ℕ → ℤ) → List ℤ
  | 0, _, _ => []
  | n + 1, current, draws =>
      ratTrunc current ::
        trendAux n (clampQ (current + (draws 0 : ℚ))) (fun i => draws (i + 1))

/-- Embedding of `generate_trend` from src/main.py lines 86-98: exactly 14
iterations of the loop body starting from `start`. -/
def generate_trend (start : ℚ) (draws : ℕ → ℤ) : List ℤ :=
  trendAux 14 start draws

/-- The value of `current` at the start of iteration `i`, written from the
claim: start, then repeatedly add the draw and clamp to [60, 350]. -/
def trendCurrent (start : ℚ) (draws : ℕ → ℤ) : ℕ → ℚ
  | 0 => start
  | i + 1 => clampQ (trendCurrent start draws i + (draws i : ℚ))

/-- The trend as claim C3 describes it, but with truncation toward zero in
place of floor (the amended claim). -/
def trendSpecTrunc (start : ℚ) (draws : ℕ → ℤ) : List ℤ :=
  (List.range 14).map (fun i => ratTrunc (trendCurrent start draws i))

/-- The trend exactly as claim C3 words it: each iteration appends
`floor(current)`. -/
def trendSpecFloor (start : ℚ) (draws : ℕ → ℤ) : List ℤ :=
  (List.range 14).map (fun i => ⌊trendCurrent start draws i⌋)

/-- Helper: shifting the draw stream advances the current value. -/
lemma trendCurrent_succ_shift (start : ℚ) (draws : ℕ → ℤ) :
    ∀ i, trendCurrent start draws (i + 1) =
      trendCurrent (clampQ (start + (draws 0 : ℚ))) (fun j => draws (j + 1)) i
  | 0 => rfl
  | i + 1 => by
    show clampQ (trendCurrent start draws (i + 1) + (draws (i + 1) : ℚ)) = _
    rw [trendCurrent_succ_shift start draws i]
    rfl

/-- Helper: the loop computes the truncations of the successive current
values. -/
lemma trendAux_eq : ∀ (n : ℕ) (start : ℚ) (draws : ℕ → ℤ),
    trendAux n start draws =
      (List.range n).map (fun i => ratTrunc (trendCurrent start draws i))
  | 0, _, _ => rfl
  | n + 1, start, draws => by
    rw [List.range_succ_eq_map, List.map_cons, List.map_map]
    show ratTrunc start :: trendAux n (clampQ (start + (draws 0 : ℚ))) _ = _
    rw [trendAux_eq n]
    refine congrArg₂ List.cons rfl ?_
    congr 1
    funext i
    show ratTrunc (trendCurrent _ _ i) = ratTrunc (trendCurrent start draws (i + 1))
    rw [trendCurrent_succ_shift start draws i]

/-- Helper: the loop produces one element per iteration. -/
lemma trendAux_length : ∀ (n : ℕ) (start : ℚ) (draws : ℕ → ℤ),
    (trendAux n start draws).length = n
  | 0, _, _ => rfl
  | n + 1, start, draws => by
    show (trendAux n _ _).length + 1 = n + 1
    rw [trendAux_length n]

/-- Helper: truncation toward zero agrees with floor on non-negatives. -/
lemma ratTrunc_eq_floor (q : ℚ) (h : 0 ≤ q) : ratTrunc q = ⌊q⌋ := by
  unfold ratTrunc
  rw [if_neg (not_lt.mpr h)]

/-- Helper: truncating a rational in [60, 350] lands in [60, 350]. -/
lemma ratTrunc_bounds (q : ℚ) (h1 : 60 ≤ q) (h2 : q ≤ 350) :
    60 ≤ ratTrunc q ∧ ratTrunc q ≤ 350 := by
  rw [ratTrunc_eq_floor q (le_trans (by norm_num) h1)]
  constructor
  · exact Int.le_floor.mpr (by exact_mod_cast h1)
  · exact_mod_cast (Int.floor_le q).trans h2

/-- Helper: the clamp always lands in [60, 350]. -/
lemma clampQ_bounds (x : ℚ) : 60 ≤ clampQ x ∧ clampQ x ≤ 350 :=
  ⟨le_max_left _ _, max_le (by norm_num) (min_le_left _ _)⟩

/-- Helper: starting in range, every emitted element is in [60, 350]. -/
lemma trendAux_mem_bounds : ∀ (n : ℕ) (current : ℚ) (draws : ℕ → ℤ),
    60 ≤ current → current ≤ 350 →
    ∀ x ∈ trendAux n current draws, 60 ≤ x ∧ x ≤ 350
  | 0, _, _, _, _, x, hx => by simp [trendAux] at hx
  | n + 1, current, draws, h1, h2, x, hx => by
    simp only [trendAux, List.mem_cons] at hx
    rcases hx with h | h
    · subst h
      exact ratTrunc_bounds current h1 h2
    · exact trendAux_mem_bounds n _ _ (clampQ_bounds _).1 (clampQ_bounds _).2 x h

/-- C3 (amended): for every start value and every draw sequence,
`generate_trend` performs exactly 14 iterations, each appending the
truncation toward zero of the current value (Python `int`), then adding
the draw, then clamping to [60, 350]; the result has exactly 14
elements. -/
theorem generate_trend_iterates (start : ℚ) (draws : ℕ → ℤ) :
    generate_trend start draws = trendSpecTrunc start draws ∧
      (generate_trend start draws).length = 14 :=
  ⟨trendAux_eq 14 start draws, trendAux_length 14 start draws⟩

/-- A negative fractional start value for the floor/truncation split. -/
def negStart : ℚ := -1 / 2

/-- The all-zero draw sequence. -/
def zeroDraws : ℕ → ℤ := fun _ => 0

/-- C3 counterexample: at start value -1/2 with zero draws, the code emits
0 as its first element (truncation toward zero) while the claim's
floor-based description emits -1, so the claim as stated is false. -/
theorem generate_trend_floor_counterexample :
    (generate_trend negStart zeroDraws).head? = some 0 ∧
      (trendSpecFloor negStart zeroDraws).head? = some (-1) ∧
      generate_trend negStart zeroDraws ≠ trendSpecFloor negStart zeroDraws := by
  have h0 : ratTrunc negStart = 0 := by
    norm_num [ratTrunc, negStart]
  have hf : ⌊negStart⌋ = -1 := by
    norm_num [negStart]
  have hg : (generate_trend negStart zeroDraws).head? = some 0 := by
    show (ratTrunc negStart :: _).head? = some 0
    rw [List.head?_cons, h0]
  have hs : (trendSpecFloor negStart zeroDraws).head? = some (-1) := by
    rw [trendSpecFloor, List.head?_map]
    have hr : (List.range 14).head? = some 0 := by decide
    rw [hr]
    show some ⌊trendCurrent negStart zeroDraws 0⌋ = some (-1)
    rw [show trendCurrent negStart zeroDraws 0 = negStart from rfl, hf]
  refine ⟨hg, hs, fun he => ?_⟩
  rw [he, hs] at hg
  exact absurd hg (by decide)

/-- One entry of the fixed product catalog of src/main.py lines 120-126. -/
structure Product where
  name : String
  carbs : ℚ
  risk : String
  expl : String

/-- The fixed catalog of 5 products (src/main.py lines 120-126). -/
def products : List Product :=
  [{ name := "Apple", carbs := 25, risk := "Low",
     expl := "Natural sugars, high fiber." },
   { name := "Soda Can", carbs := 40, risk := "High",
     expl := "High glycemic index, liquid sugar." },
   { name := "Pizza Slice", carbs := 35, risk := "Medium",
     expl := "Fat/protein delays absorption, but high carb." },
   { name := "Salad", carbs := 10, risk := "Low",
     expl := "Very low impact." },
   { name := "Donut", carbs := 45, risk := "High",
     expl := "Refined carbs and fats." }]

/-- Mirrors the pydantic model `ScanResponse` of src/main.py. -/
structure ScanResponse where
  product_name : String
  estimated_carbs : ℚ
  risk_label : String
  risk_score : ℤ
  explanation : String

/-- Embedding of the body of `scan_product` (src/main.py lines 112-144):
`pick` supplies the outcome of `random.choice(products)` and `randint`
models `random.randint`; the uploaded file is ignored by the source so it
does not appear. -/
def scan_product (pick : Fin products.length) (randint : ℤ → ℤ → ℤ) :
    ScanResponse :=
  let detected := products.get pick
  let score : ℤ :=
    if detected.risk = "High" then randint 70 95
    else if detected.risk = "Medium" then randint 30 69
    else randint 5 29
  { product_name := detected.name, estimated_carbs := detected.carbs,
    risk_label := detected.risk, risk_score := score,
    explanation := detected.expl }

/-- C5: for every random pick and every `randint` behaving as a bounded
draw, the scan result's product name is one of the five fixed names and
its score lies in the bucket range matching its label: High in [70,95],
Medium in [30,69], Low in [5,29]. -/
theorem scan_product_invariants (pick : Fin products.length)
    (randint : ℤ → ℤ → ℤ)
    (h : ∀ a b : ℤ, a ≤ b → a ≤ randint a b ∧ randint a b ≤ b) :
    ((scan_product pick randint).product_name = "Apple" ∨
     (scan_product pick randint).product_name = "Soda Can" ∨
     (scan_product pick randint).product_name = "Pizza Slice" ∨
     (scan_product pick randint).product_name = "Salad" ∨
     (scan_product pick randint).product_name = "Donut") ∧
    (((scan_product pick randint).risk_label = "High" ∧
        70 ≤ (scan_product pick randint).risk_score ∧
        (scan_product pick randint).risk_score ≤ 95) ∨
     ((scan_product pick randint).risk_label = "Medium" ∧
        30 ≤ (scan_product pick randint).risk_score ∧
        (scan_product pick randint).risk_score ≤ 69) ∨
     ((scan_product pick randint).risk_label = "Low" ∧
        5 ≤ (scan_product pick randint).risk_score ∧
        (scan_product pick randint).risk_score ≤ 29)) := by
  have h1 := h 70 95 (by norm_num)
  have h2 := h 30 69 (by norm_num)
  have h3 := h 5 29 (by norm_num)
  fin_cases pick
  · exact ⟨Or.inl rfl, Or.inr (Or.inr ⟨rfl, h3.1, h3.2⟩)⟩
  · exact ⟨Or.inr (Or.inl rfl), Or.inl ⟨rfl, h1.1, h1.2⟩⟩
  · exact ⟨Or.inr (Or.inr (Or.inl rfl)), Or.inr (Or.inl ⟨rfl, h2.1, h2.2⟩)⟩
  · exact ⟨Or.inr (Or.inr (Or.inr (Or.inl rfl))), Or.inr (Or.inr ⟨rfl, h3.1, h3.2⟩)⟩
  · exact ⟨Or.inr (Or.inr (Or.inr (Or.inr rfl))), Or.inl ⟨rfl, h1.1, h1.2⟩⟩

/-- The first catalog index, modelling one concrete outcome of
`random.choice`. -/
def pick0 : Fin products.length := ⟨0, by decide⟩

/-- A concrete bounded draw function returning the lower endpoint. -/
def lowEnd : ℤ → ℤ → ℤ := fun a _ => a

/-- C5 witness: instantiated at the first catalog entry with the
lower-endpoint draw. -/
theorem scan_product_invariants_witness :
    ((scan_product pick0 lowEnd).product_name = "Apple" ∨
     (scan_product pick0 lowEnd).product_name = "Soda Can" ∨
     (scan_product pick0 lowEnd).product_name = "Pizza Slice" ∨
     (scan_product pick0 lowEnd).product_name = "Salad" ∨
     (scan_product pick0 lowEnd).product_name = "Donut") ∧
    (((scan_product pick0 lowEnd).risk_label = "High" ∧
        70 ≤ (scan_product pick0 lowEnd).risk_score ∧
        (scan_product pick0 lowEnd).risk_score ≤ 95) ∨
     ((scan_product pick0 lowEnd).risk_label = "Medium" ∧
        30 ≤ (scan_product pick0 lowEnd).risk_score ∧
        (scan_product pick0 lowEnd).risk_score ≤ 69) ∨
     ((scan_product pick0 lowEnd).risk_label = "Low" ∧
        5 ≤ (scan_product pick0 lowEnd).risk_score ∧
        (scan_product pick0 lowEnd).risk_score ≤ 29)) :=
  scan_product_invariants pick0 lowEnd (fun a _b hab => ⟨le_refl a, hab⟩)

/-- C4: from start value 100, for every draw sequence, the trend has
exactly 14 elements, every element lies in [60, 350], and the first
element is 100. -/
theorem generate_trend_100 (draws : ℕ → ℤ) :
    (generate_trend 100 draws).length = 14 ∧
      (∀ x ∈ generate_trend 100 draws, 60 ≤ x ∧ x ≤ 350) ∧
      (generate_trend 100 draws).head? = some 100 := by
  refine ⟨trendAux_length 14 100 draws, ?_, ?_⟩
  · exact trendAux_mem_bounds 14 100 draws (by norm_num) (by norm_num)
  · show (ratTrunc 100 :: _).head? = some 100
    rw [List.head?_cons]
    norm_num [ratTrunc]
